import Mathlib

/-!
Shallow embedding of the order-processing and authorization subsystem of the
BlossomHub backend (Express/Mongoose), translated from:

- src/controllers/ordersController.js : createOrder, updateOrderStatus
- src/unnamed/part_000 (userController) : createUser, getUserById, updateUser, deleteUser
- src/unnamed/part_003 (user routes) : middleware applied to each user route

The persistence collaborator (Mongoose) is modelled as an explicit list of
documents threaded through each operation; findById / findOne become list
searches, save / findByIdAndUpdate / deleteOne become list updates.  Prices
are modelled as rationals, timestamps as naturals, document ids as strings.
-/

namespace BlossomHub

/-- A catalog product (`Flower` document): id and current price. -/
structure Flower where
  id : String
  price : Rat
deriving DecidableEq

/-- `Flower.findById` over the catalog: first document whose id matches. -/
def findFlower (catalog : List Flower) (fid : String) : Option Flower :=
  catalog.find? (fun f => f.id == fid)

/-- One entry of the request body `items` array: a product reference and a
quantity (a JS number, modelled as an integer). -/
structure OrderItemReq where
  flower : String
  quantity : Int
deriving DecidableEq

/-- One priced line item as pushed onto `orderItems` in `createOrder`. -/
structure OrderLineItem where
  flower : String
  quantity : Int
  priceAtPurchase : Rat
deriving DecidableEq

/-- An `Order` document.  `user` is the owner id; `status` defaults to
"pending" at creation (Modelled from the spec: the Order schema file is not
part of the extracted sources; the spec fixes `pending` as the initial
status). -/
structure Order where
  id : String
  user : String
  items : List OrderLineItem
  totalAmount : Rat
  status : String
  shippingAddress : String
  createdAt : Nat
  updatedAt : Nat
deriving DecidableEq

/-- Outcome of `createOrder`: the 201 success branch or the 400
"Flower not found with ID ..." branch. -/
inductive CreateOrderResult where
  | created (o : Order)
  | flowerNotFound (fid : String)
deriving DecidableEq

/-- Whether a `createOrder` outcome is the success branch. -/
def CreateOrderResult.isCreated : CreateOrderResult → Bool
  | .created _ => true
  | .flowerNotFound _ => false

/-- The pricing loop of `createOrder`: for each item, resolve the flower
(400 if absent), snapshot its price, accumulate `totalAmount`, and push the
line item.  `acc` and `total` are the loop variables `orderItems` and
`totalAmount`. -/
def priceLoop (catalog : List Flower) (items : List OrderItemReq)
    (acc : List OrderLineItem) (total : Rat) :
    Except String (List OrderLineItem × Rat) :=
  match items with
  | [] => .ok (acc, total)
  | item :: rest =>
    match findFlower catalog item.flower with
    | none => .error item.flower
    | some f =>
      priceLoop catalog rest
        (acc ++ [{ flower := f.id, quantity := item.quantity,
                   priceAtPurchase := f.price }])
        (total + f.price * (item.quantity : Rat))

/-- `createOrder`: price the items against the catalog; on any pricing error
return it with the store untouched; otherwise construct the order document
and save it (append to the store). -/
def createOrder (catalog : List Flower) (store : List Order) (user : String)
    (items : List OrderItemReq) (shippingAddress : String)
    (now : Nat) (newId : String) : CreateOrderResult × List Order :=
  match priceLoop catalog items [] 0 with
  | .error fid => (.flowerNotFound fid, store)
  | .ok (orderItems, totalAmount) =>
    let o : Order :=
      { id := newId, user := user, items := orderItems,
        totalAmount := totalAmount, status := "pending",
        shippingAddress := shippingAddress, createdAt := now,
        updatedAt := now }
    (.created o, store ++ [o])

/-- The hard-coded `validStatuses` array of `updateOrderStatus`. -/
def validStatuses : List String :=
  ["pending", "processing", "shipped", "delivered", "cancelled"]

/-- Outcome of `updateOrderStatus`. -/
inductive UpdateStatusResult where
  | ok (o : Order)
  | invalidStatus
  | notFound
deriving DecidableEq

/-- `updateOrderStatus`: reject a status outside `validStatuses` with 400
before touching the store; otherwise `findByIdAndUpdate` sets exactly
`status` and `updatedAt` and returns the updated document (404 when the id
resolves to no order). -/
def updateOrderStatus (store : List Order) (oid : String) (status : String)
    (now : Nat) : UpdateStatusResult × List Order :=
  if validStatuses.contains status then
    match store.find? (fun o => o.id == oid) with
    | none => (.notFound, store)
    | some o =>
      let updated : Order := { o with status := status, updatedAt := now }
      (.ok updated, store.map (fun x => if x.id == oid then updated else x))
  else (.invalidStatus, store)

/-- The authenticated actor (`req.user`), supplied by the session middleware.
An undefined `role` property is modelled as the empty string, which is never
equal to "admin". -/
structure Principal where
  id : String
  role : String
deriving DecidableEq

/-- A `User` document.  The Mongoose schema fields plus the fields the
controller reads and writes; an absent string field is the empty string. -/
structure UserDoc where
  id : String
  githubId : String
  googleId : String
  email : String
  displayName : String
  profilePicture : String
  phoneNumber : String
  address : String
  role : String
  isAdmin : Bool
  createdAt : Nat
  updatedAt : Nat
deriving DecidableEq

/-- `User.findById` over the account store. -/
def findUser (store : List UserDoc) (uid : String) : Option UserDoc :=
  store.find? (fun u => u.id == uid)

/-- The body of a profile-update request (`req.body`): each schema field the
controller may touch, present (`some`) or absent (`none`). -/
structure UserPatch where
  displayName : Option String
  profilePicture : Option String
  phoneNumber : Option String
  address : Option String
  role : Option String
  email : Option String
  googleId : Option String
  isAdmin : Option Bool
deriving DecidableEq

/-- The empty patch: no keys present. -/
def UserPatch.empty : UserPatch :=
  { displayName := none, profilePicture := none, phoneNumber := none,
    address := none, role := none, email := none, googleId := none,
    isAdmin := none }

/-- JS truthiness of `req.body.role`: the key is present with a non-empty
value. -/
def UserPatch.roleTruthy (patch : UserPatch) : Bool :=
  match patch.role with
  | some r => r != ""
  | none => false

/-- Outcome of `getUserById`. -/
inductive GetUserResult where
  | ok (u : UserDoc)
  | unauthenticated
  | notFound
  | forbidden
deriving DecidableEq

/-- `getUserById`: resolve "me" to the principal id (401 when no session),
otherwise fetch by the explicit id; 404 when absent; then the ownership
check, applied only when a principal is present: a non-admin principal whose
id differs from the fetched document id gets 403. -/
def getUserById (store : List UserDoc) (principal : Option Principal)
    (idParam : String) : GetUserResult :=
  if idParam == "me" then
    match principal with
    | none => .unauthenticated
    | some p =>
      if p.id == "" then .unauthenticated
      else
        match findUser store p.id with
        | none => .notFound
        | some u =>
          if p.role != "admin" && u.id != p.id then .forbidden else .ok u
  else
    match findUser store idParam with
    | none => .notFound
    | some u =>
      match principal with
      | none => .ok u
      | some p =>
        if p.role != "admin" && u.id != p.id then .forbidden else .ok u

/-- Outcome of `updateUser`.  The two distinct 403 responses are kept apart:
`forbiddenProfile` is "Not authorized to update this user profile",
`forbiddenRole` is "Not authorized to change user role".  `serverError` is
the uncaught TypeError of reading `req.user.id` with no session on the "me"
route. -/
inductive UpdateUserResult where
  | ok (u : UserDoc)
  | unauthenticated
  | notFound
  | forbiddenProfile
  | forbiddenRole
  | serverError
deriving DecidableEq

/-- The non-admin field filter of `updateUser` followed by the unconditional
`updates.updatedAt = Date.now()`: only `displayName`, `profilePicture`,
`phoneNumber`, `address` from the body are kept. -/
def applyAllowedUpdates (u : UserDoc) (patch : UserPatch) (now : Nat) :
    UserDoc :=
  { u with
    displayName := patch.displayName.getD u.displayName,
    profilePicture := patch.profilePicture.getD u.profilePicture,
    phoneNumber := patch.phoneNumber.getD u.phoneNumber,
    address := patch.address.getD u.address,
    updatedAt := now }

/-- The admin branch of `updateUser`: the whole body is applied except
`googleId`, then `updatedAt` is refreshed. -/
def applyAdminUpdates (u : UserDoc) (patch : UserPatch) (now : Nat) :
    UserDoc :=
  { u with
    displayName := patch.displayName.getD u.displayName,
    profilePicture := patch.profilePicture.getD u.profilePicture,
    phoneNumber := patch.phoneNumber.getD u.phoneNumber,
    address := patch.address.getD u.address,
    role := patch.role.getD u.role,
    email := patch.email.getD u.email,
    isAdmin := patch.isAdmin.getD u.isAdmin,
    updatedAt := now }

/-- `updateUser`: resolve the target id ("me" with no session throws), 401
with no session, 404 when the target is absent, 403 for a non-owning
non-admin, 403 for a truthy `role` key from a non-admin differing from the
stored role, then apply the (filtered) updates via `findByIdAndUpdate`. -/
def updateUser (store : List UserDoc) (principal : Option Principal)
    (idParam : String) (patch : UserPatch) (now : Nat) :
    UpdateUserResult × List UserDoc :=
  match principal with
  | none =>
    if idParam == "me" then (.serverError, store)
    else (.unauthenticated, store)
  | some p =>
    if p.id == "" then (.unauthenticated, store)
    else
      let targetId := if idParam == "me" then p.id else idParam
      match findUser store targetId with
      | none => (.notFound, store)
      | some u =>
        if p.role != "admin" && u.id != p.id then (.forbiddenProfile, store)
        else if patch.roleTruthy && p.role != "admin"
            && patch.role.getD "" != u.role then
          (.forbiddenRole, store)
        else
          let updated :=
            if p.role != "admin" then applyAllowedUpdates u patch now
            else applyAdminUpdates u patch now
          (.ok updated,
           store.map (fun x => if x.id == targetId then updated else x))

/-- Outcome of `deleteUser`. -/
inductive DeleteUserResult where
  | deleted
  | notFound
  | lastAdmin
deriving DecidableEq

/-- `deleteUser` (route: `isAuthenticated` only, so a principal is present):
404 when the target is absent; when the target is the principal's own
account and the principal's role is "admin", count the documents with
`role == "admin"` and refuse with 400 when that count is at most one;
otherwise delete the document. -/
def deleteUser (store : List UserDoc) (p : Principal) (targetId : String) :
    DeleteUserResult × List UserDoc :=
  match findUser store targetId with
  | none => (.notFound, store)
  | some u =>
    if u.id == p.id && p.role == "admin" then
      if (store.filter (fun x => x.role == "admin")).length ≤ 1 then
        (.lastAdmin, store)
      else (.deleted, store.filter (fun x => x.id != u.id))
    else (.deleted, store.filter (fun x => x.id != u.id))

/-- The GitHub profile handed over by passport (`req.user` on the OAuth
callback): id, the `emails` array (each entry's `value`), display name. -/
structure GithubUser where
  id : String
  emails : List String
  displayName : String
deriving DecidableEq

/-- `createUser`: destructure the first email, look the account up by that
email, and return without writing when it exists; otherwise save a new
document with `githubId`, `email`, `displayName`, `isAdmin := false` (the
remaining fields take their schema defaults). -/
def createUser (store : List UserDoc) (gh : GithubUser) (newId : String)
    (now : Nat) : List UserDoc :=
  match gh.emails.head? with
  | none => store
  | some e =>
    if (store.find? (fun u => u.email == e)).isSome then store
    else
      store ++
        [{ id := newId, githubId := gh.id, googleId := "", email := e,
           displayName := gh.displayName, profilePicture := "",
           phoneNumber := "", address := "", role := "", isAdmin := false,
           createdAt := now, updatedAt := now }]

/-! ### Order subsystem lemmas -/

/-- The in-order correspondence between a request item and the line item the
pricing loop builds for it: same product id, same quantity, and the price
snapshot is exactly what the catalog returned at resolution time. -/
def LineMatches (catalog : List Flower) (it : OrderItemReq)
    (li : OrderLineItem) : Prop :=
  li.flower = it.flower ∧ li.quantity = it.quantity ∧
    findFlower catalog it.flower = some ⟨li.flower, li.priceAtPurchase⟩

theorem priceLoop_ok (catalog : List Flower) :
    ∀ (items : List OrderItemReq),
      (∀ it ∈ items, (findFlower catalog it.flower).isSome) →
      ∀ (acc : List OrderLineItem) (total : Rat),
      ∃ lis tot,
        priceLoop catalog items acc total = .ok (acc ++ lis, tot) ∧
        List.Forall₂ (LineMatches catalog) items lis ∧
        tot = total +
          (lis.map (fun li => li.priceAtPurchase * (li.quantity : Rat))).sum := by
  intro items
  induction items with
  | nil =>
    intro _ acc total
    exact ⟨[], total, by simp [priceLoop], List.Forall₂.nil, by simp⟩
  | cons item rest ih =>
    intro h acc total
    have h1 : (findFlower catalog item.flower).isSome :=
      h item (List.mem_cons_self item rest)
    obtain ⟨f, hf⟩ := Option.isSome_iff_exists.mp h1
    obtain ⟨fi, fp⟩ := f
    have hid : fi = item.flower := by
      have hfind : List.find? (fun x => x.id == item.flower) catalog =
          some ⟨fi, fp⟩ := hf
      simpa using List.find?_some hfind
    subst hid
    obtain ⟨lis, tot, heq, hrel, htot⟩ :=
      ih (fun it hit => h it (List.mem_cons_of_mem item hit))
        (acc ++ [{ flower := item.flower, quantity := item.quantity,
                   priceAtPurchase := fp }])
        (total + fp * (item.quantity : Rat))
    refine ⟨{ flower := item.flower, quantity := item.quantity,
              priceAtPurchase := fp } :: lis, tot, ?_, ?_, ?_⟩
    · simpa [priceLoop, hf, List.append_assoc] using heq
    · exact List.Forall₂.cons ⟨rfl, rfl, hf⟩ hrel
    · simpa [add_assoc] using htot

theorem priceLoop_error (catalog : List Flower) :
    ∀ (items : List OrderItemReq),
      (∃ it ∈ items, findFlower catalog it.flower = none) →
      ∀ (acc : List OrderLineItem) (total : Rat),
      ∃ fid, (∃ it ∈ items, it.flower = fid ∧ findFlower catalog fid = none) ∧
        priceLoop catalog items acc total = .error fid := by
  intro items
  induction items with
  | nil =>
    rintro ⟨it, hmem, _⟩ acc total
    exact absurd hmem (List.not_mem_nil it)
  | cons item rest ih =>
    rintro ⟨it, hmem, hnone⟩ acc total
    cases hfind : findFlower catalog item.flower with
    | none =>
      exact ⟨item.flower, ⟨item, List.mem_cons_self item rest, rfl, hfind⟩,
        by simp [priceLoop, hfind]⟩
    | some f =>
      have hrest : ∃ it ∈ rest, findFlower catalog it.flower = none := by
        rcases List.mem_cons.mp hmem with h | h
        · rw [h] at hnone; rw [hfind] at hnone; cases hnone
        · exact ⟨it, h, hnone⟩
      obtain ⟨fid, ⟨it2, hm2, hfl, hn2⟩, heq⟩ :=
        ih hrest
          (acc ++ [{ flower := f.id, quantity := item.quantity,
                     priceAtPurchase := f.price }])
          (total + f.price * (item.quantity : Rat))
      exact ⟨fid, ⟨it2, List.mem_cons_of_mem item hm2, hfl, hn2⟩,
        by simpa [priceLoop, hfind] using heq⟩

/-! ### Claims about the order subsystem -/

/-- C1: when every referenced product exists in the catalog, `createOrder`
persists exactly one new order whose line items correspond to the input
items in input order, each snapshotting the catalog price read at resolution
time, and whose `totalAmount` is the sum of quantity times
`priceAtPurchase` over the line items. -/
theorem createOrder_valid_items_spec (catalog : List Flower)
    (store : List Order) (user : String) (items : List OrderItemReq)
    (shippingAddress : String) (now : Nat) (newId : String)
    (h : ∀ it ∈ items, (findFlower catalog it.flower).isSome) :
    ∃ o : Order,
      createOrder catalog store user items shippingAddress now newId =
        (.created o, store ++ [o]) ∧
      List.Forall₂ (LineMatches catalog) items o.items ∧
      o.totalAmount =
        (o.items.map (fun li => li.priceAtPurchase * (li.quantity : Rat))).sum := by
  obtain ⟨lis, tot, heq, hrel, htot⟩ := priceLoop_ok catalog items h [] 0
  refine ⟨{ id := newId, user := user, items := lis, totalAmount := tot,
            status := "pending", shippingAddress := shippingAddress,
            createdAt := now, updatedAt := now }, ?_, hrel, ?_⟩
  · simp only [createOrder]
    rw [heq]
    simp
  · simpa using htot

/-- C1 witness: a catalog holding product p1 at price 10 and the item list
with the single entry (p1, quantity 2). -/
theorem createOrder_valid_items_spec_witness :
    ∃ o : Order,
      createOrder [{ id := "p1", price := 10 }] [] "u1"
          [{ flower := "p1", quantity := 2 }] "addr" 0 "o1" =
        (.created o, [] ++ [o]) ∧
      List.Forall₂ (LineMatches [{ id := "p1", price := 10 }])
        [{ flower := "p1", quantity := 2 }] o.items ∧
      o.totalAmount =
        (o.items.map (fun li => li.priceAtPurchase * (li.quantity : Rat))).sum :=
  createOrder_valid_items_spec [{ id := "p1", price := 10 }] [] "u1"
    [{ flower := "p1", quantity := 2 }] "addr" 0 "o1" (by decide)

/-- C3: when some referenced product does not resolve in the catalog,
`createOrder` fails with the 400 "Flower not found" error naming that
product and leaves the order store unchanged. -/
theorem createOrder_productNotFound_spec (catalog : List Flower)
    (store : List Order) (user : String) (items : List OrderItemReq)
    (shippingAddress : String) (now : Nat) (newId : String)
    (h : ∃ it ∈ items, findFlower catalog it.flower = none) :
    ∃ fid, (∃ it ∈ items, it.flower = fid ∧ findFlower catalog fid = none) ∧
      createOrder catalog store user items shippingAddress now newId =
        (.flowerNotFound fid, store) := by
  obtain ⟨fid, hwit, heq⟩ := priceLoop_error catalog items h [] 0
  exact ⟨fid, hwit, by simp only [createOrder]; rw [heq]⟩

/-- C3 witness: an empty catalog and an item list referencing p1. -/
theorem createOrder_productNotFound_spec_witness :
    ∃ fid, (∃ it ∈ [({ flower := "p1", quantity := 2 } : OrderItemReq)],
        it.flower = fid ∧ findFlower [] fid = none) ∧
      createOrder [] [] "u1" [{ flower := "p1", quantity := 2 }] "addr" 0 "o1" =
        (.flowerNotFound fid, []) :=
  createOrder_productNotFound_spec [] [] "u1"
    [{ flower := "p1", quantity := 2 }] "addr" 0 "o1"
    ⟨{ flower := "p1", quantity := 2 }, by decide, by decide⟩

/-- C4: `createOrder` performs no quantity validation.  With the catalog
holding p1 at price 10, an item list with quantity 0 (and likewise a
negative quantity) is priced without an InvalidQuantity failure and an order
is persisted, contrary to the stated requirement that the pricing operation
fail and create nothing. -/
theorem createOrder_nonpositive_quantity_eval :
    (createOrder [{ id := "p1", price := 10 }] [] "u1"
        [{ flower := "p1", quantity := 0 }] "addr" 0 "o1").1.isCreated = true ∧
    (createOrder [{ id := "p1", price := 10 }] [] "u1"
        [{ flower := "p1", quantity := 0 }] "addr" 0 "o1").2.length = 1 ∧
    (createOrder [{ id := "p1", price := 10 }] [] "u1"
        [{ flower := "p1", quantity := -2 }] "addr" 0 "o1").1 =
      .created { id := "o1", user := "u1",
                 items := [{ flower := "p1", quantity := -2,
                             priceAtPurchase := 10 }],
                 totalAmount := -20, status := "pending",
                 shippingAddress := "addr", createdAt := 0, updatedAt := 0 } := by
  refine ⟨rfl, rfl, ?_⟩
  show CreateOrderResult.created _ = _
  norm_num [Rat.mul_def]

/-- C5: for an existing order, `updateOrderStatus` with a status inside the
five-value enumeration succeeds and changes exactly the `status` and
`updatedAt` fields of that order; with a status outside the enumeration it
fails with the 400 "Invalid status" response and the store is unchanged. -/
theorem updateOrderStatus_spec (store : List Order) (oid status : String)
    (now : Nat) (o : Order)
    (h : store.find? (fun x => x.id == oid) = some o) :
    (status ∈ validStatuses →
      updateOrderStatus store oid status now =
        (.ok { o with status := status, updatedAt := now },
         store.map (fun x =>
           if x.id == oid then { o with status := status, updatedAt := now }
           else x))) ∧
    (status ∉ validStatuses →
      updateOrderStatus store oid status now = (.invalidStatus, store)) := by
  constructor
  · intro hs
    simp [updateOrderStatus, h, hs]
  · intro hs
    simp [updateOrderStatus, hs]

/-- C5 witness: a one-order store, updated to "shipped" (inside the
enumeration) and to "archived" (outside it). -/
theorem updateOrderStatus_spec_witness :
    (updateOrderStatus
        [{ id := "o1", user := "u1", items := [], totalAmount := 0,
           status := "pending", shippingAddress := "a", createdAt := 0,
           updatedAt := 0 }] "o1" "shipped" 5).1 =
      .ok { id := "o1", user := "u1", items := [], totalAmount := 0,
            status := "shipped", shippingAddress := "a", createdAt := 0,
            updatedAt := 5 } ∧
    updateOrderStatus
        [{ id := "o1", user := "u1", items := [], totalAmount := 0,
           status := "pending", shippingAddress := "a", createdAt := 0,
           updatedAt := 0 }] "o1" "archived" 5 =
      (.invalidStatus,
       [{ id := "o1", user := "u1", items := [], totalAmount := 0,
          status := "pending", shippingAddress := "a", createdAt := 0,
          updatedAt := 0 }]) := by
  have h1 := updateOrderStatus_spec
    [{ id := "o1", user := "u1", items := [], totalAmount := 0,
       status := "pending", shippingAddress := "a", createdAt := 0,
       updatedAt := 0 }] "o1" "shipped" 5
    { id := "o1", user := "u1", items := [], totalAmount := 0,
      status := "pending", shippingAddress := "a", createdAt := 0,
      updatedAt := 0 } (by decide)
  have h2 := updateOrderStatus_spec
    [{ id := "o1", user := "u1", items := [], totalAmount := 0,
       status := "pending", shippingAddress := "a", createdAt := 0,
       updatedAt := 0 }] "o1" "archived" 5
    { id := "o1", user := "u1", items := [], totalAmount := 0,
      status := "pending", shippingAddress := "a", createdAt := 0,
      updatedAt := 0 } (by decide)
  refine ⟨?_, h2.2 (by decide)⟩
  rw [h1.1 (by decide)]

/-! ### Sample documents used by witnesses and counterexamples -/

/-- A customer account. -/
def uCustomer : UserDoc :=
  { id := "u1", githubId := "g1", googleId := "", email := "c@x.io",
    displayName := "Cust", profilePicture := "", phoneNumber := "",
    address := "", role := "customer", isAdmin := false, createdAt := 0,
    updatedAt := 0 }

/-- An administrator account. -/
def uAdmin : UserDoc :=
  { id := "u2", githubId := "g2", googleId := "", email := "a@x.io",
    displayName := "Adm", profilePicture := "", phoneNumber := "",
    address := "", role := "admin", isAdmin := true, createdAt := 0,
    updatedAt := 0 }

/-- A second administrator account. -/
def uAdmin2 : UserDoc :=
  { id := "u3", githubId := "g3", googleId := "", email := "b@x.io",
    displayName := "Adm2", profilePicture := "", phoneNumber := "",
    address := "", role := "admin", isAdmin := true, createdAt := 0,
    updatedAt := 0 }

/-! ### Claims about the user subsystem -/

/-- C2: the ownership policy applied by the user controllers, for a present
principal and an existing target fetched by explicit id: an admin principal
is allowed through both the read and the update endpoint; a principal whose
id equals the target document id is allowed; a non-admin principal with a
mismatched id is denied with the 403 Forbidden response by both endpoints,
with no write. -/
theorem authorize_ownership_spec (store : List UserDoc) (u : UserDoc)
    (p : Principal) (idParam : String) (patch : UserPatch) (now : Nat)
    (hm : idParam ≠ "me") (hp : p.id ≠ "")
    (hfind : findUser store idParam = some u) :
    (p.role = "admin" →
      getUserById store (some p) idParam = .ok u ∧
      ∃ u2, (updateUser store (some p) idParam patch now).1 = .ok u2) ∧
    (p.id = u.id →
      getUserById store (some p) idParam = .ok u ∧
      (patch.role = none →
        ∃ u2, (updateUser store (some p) idParam patch now).1 = .ok u2)) ∧
    (p.role ≠ "admin" → p.id ≠ u.id →
      getUserById store (some p) idParam = .forbidden ∧
      updateUser store (some p) idParam patch now =
        (.forbiddenProfile, store)) := by
  have hme : (idParam == "me") = false := beq_eq_false_iff_ne.mpr hm
  have hpb : (p.id == "") = false := beq_eq_false_iff_ne.mpr hp
  refine ⟨?_, ?_, ?_⟩
  · intro hrole
    constructor
    · simp [getUserById, hme, hfind, hrole]
    · exact ⟨applyAdminUpdates u patch now,
        by simp [updateUser, hme, hpb, hfind, hrole]⟩
  · intro hid
    constructor
    · simp [getUserById, hme, hfind, hid.symm]
    · intro hr
      by_cases hb : p.role = "admin"
      · exact ⟨applyAdminUpdates u patch now,
          by simp [updateUser, hme, hpb, hfind, hb, hid.symm,
                   UserPatch.roleTruthy, hr]⟩
      · exact ⟨applyAllowedUpdates u patch now,
          by simp [updateUser, hme, hpb, hfind, hb, hid.symm,
                   UserPatch.roleTruthy, hr]⟩
  · intro hrole hne
    have hne2 : ¬ u.id = p.id := fun e => hne e.symm
    constructor
    · simp [getUserById, hme, hfind, hrole, hne2]
    · simp [updateUser, hme, hpb, hfind, hrole, hne2]

/-- C2 witness: the store holding the customer account u1; the admin
principal, the owner principal and a mismatched customer principal acting
on target id u1. -/
theorem authorize_ownership_spec_witness :
    (getUserById [uCustomer] (some { id := "u9", role := "admin" }) "u1" =
        .ok uCustomer ∧
      ∃ u2, (updateUser [uCustomer] (some { id := "u9", role := "admin" })
          "u1" UserPatch.empty 7).1 = .ok u2) ∧
    (getUserById [uCustomer] (some { id := "u1", role := "customer" }) "u1" =
        .ok uCustomer) ∧
    (getUserById [uCustomer] (some { id := "u9", role := "customer" }) "u1" =
        .forbidden ∧
      updateUser [uCustomer] (some { id := "u9", role := "customer" }) "u1"
          UserPatch.empty 7 = (.forbiddenProfile, [uCustomer])) := by
  have hadm := authorize_ownership_spec [uCustomer] uCustomer
    { id := "u9", role := "admin" } "u1" UserPatch.empty 7
    (by decide) (by decide) (by decide)
  have hown := authorize_ownership_spec [uCustomer] uCustomer
    { id := "u1", role := "customer" } "u1" UserPatch.empty 7
    (by decide) (by decide) (by decide)
  have hmis := authorize_ownership_spec [uCustomer] uCustomer
    { id := "u9", role := "customer" } "u1" UserPatch.empty 7
    (by decide) (by decide) (by decide)
  exact ⟨hadm.1 rfl, (hown.2.1 rfl).1, hmis.2.2 (by decide) (by decide)⟩

/-- C6 counterexample: a non-admin principal patching their own profile with
a role key holding the empty string, which differs from the stored role
"customer".  The claim requires a Forbidden rejection with no write, but the
code's truthiness test skips the role check, silently drops the key, and
writes the document (refreshing `updatedAt`). -/
theorem updateUser_role_empty_counterexample :
    (updateUser [uCustomer] (some { id := "u1", role := "customer" }) "u1"
        { UserPatch.empty with role := some "" } 9).1 =
      .ok { uCustomer with updatedAt := 9 } ∧
    (updateUser [uCustomer] (some { id := "u1", role := "customer" }) "u1"
        { UserPatch.empty with role := some "" } 9).2 ≠ [uCustomer] := by
  decide

/-- C6 (amended): for a non-admin principal updating their own profile, a
patch whose role key holds a non-empty value differing from the stored role
is rejected with 403 Forbidden and nothing is written; otherwise exactly the
keys displayName, profilePicture, phoneNumber and address from the patch are
applied (plus the unconditional `updatedAt` refresh), and the remaining
stored fields, role included, are unchanged. -/
theorem updateUser_nonadmin_self_spec (store : List UserDoc) (u : UserDoc)
    (p : Principal) (patch : UserPatch) (now : Nat)
    (hrole : p.role ≠ "admin") (hp : p.id ≠ "")
    (hu : findUser store p.id = some u) :
    (∀ r, patch.role = some r → r ≠ "" → r ≠ u.role →
      updateUser store (some p) p.id patch now = (.forbiddenRole, store)) ∧
    ((patch.roleTruthy = false ∨ patch.role.getD "" = u.role) →
      updateUser store (some p) p.id patch now =
        (.ok (applyAllowedUpdates u patch now),
         store.map (fun x =>
           if x.id == p.id then applyAllowedUpdates u patch now else x))) ∧
    ((applyAllowedUpdates u patch now).role = u.role ∧
     (applyAllowedUpdates u patch now).email = u.email ∧
     (applyAllowedUpdates u patch now).googleId = u.googleId ∧
     (applyAllowedUpdates u patch now).isAdmin = u.isAdmin ∧
     (applyAllowedUpdates u patch now).id = u.id ∧
     (applyAllowedUpdates u patch now).githubId = u.githubId ∧
     (applyAllowedUpdates u patch now).createdAt = u.createdAt) := by
  have hb0 : (p.role == "admin") = false := beq_eq_false_iff_ne.mpr hrole
  have hpb : (p.id == "") = false := beq_eq_false_iff_ne.mpr hp
  have hup : u.id = p.id := by
    have hfind : List.find? (fun x => x.id == p.id) store = some u := hu
    simpa using List.find?_some hfind
  refine ⟨?_, ?_, rfl, rfl, rfl, rfl, rfl, rfl, rfl⟩
  · intro r hr hne1 hne2
    simp [updateUser, hpb, hu, hup, hrole, UserPatch.roleTruthy, hr,
          hne1, hne2]
  · intro hcase
    rcases hcase with hrt | hgd
    · simp [updateUser, hpb, hu, hup, hrole, hrt]
    · simp [updateUser, hpb, hu, hup, hrole, UserPatch.roleTruthy, hgd]

/-- C6 witness: the customer patching their own account; a role key holding
"manager" is rejected, while a displayName-only patch succeeds and drops
nothing else. -/
theorem updateUser_nonadmin_self_spec_witness :
    updateUser [uCustomer] (some { id := "u1", role := "customer" }) "u1"
        { UserPatch.empty with role := some "manager" } 9 =
      (.forbiddenRole, [uCustomer]) ∧
    updateUser [uCustomer] (some { id := "u1", role := "customer" }) "u1"
        { UserPatch.empty with displayName := some "New" } 9 =
      (.ok (applyAllowedUpdates uCustomer
          { UserPatch.empty with displayName := some "New" } 9),
       [applyAllowedUpdates uCustomer
          { UserPatch.empty with displayName := some "New" } 9]) := by
  have h1 := updateUser_nonadmin_self_spec [uCustomer] uCustomer
    { id := "u1", role := "customer" }
    { UserPatch.empty with role := some "manager" } 9
    (by decide) (by decide) (by decide)
  have h2 := updateUser_nonadmin_self_spec [uCustomer] uCustomer
    { id := "u1", role := "customer" }
    { UserPatch.empty with displayName := some "New" } 9
    (by decide) (by decide) (by decide)
  refine ⟨h1.1 "manager" rfl (by decide) (by decide), ?_⟩
  rw [h2.2.1 (Or.inl (by decide))]
  simp [uCustomer]

/-- C7: an admin principal deleting their own existing account is refused
with the 400 "Cannot delete the last admin user." response, and nothing is
deleted, whenever at most one stored account has role "admin"; with two or
more admin accounts the deletion succeeds and removes exactly that
account. -/
theorem deleteUser_lastAdmin_spec (store : List UserDoc) (p : Principal)
    (u : UserDoc) (hrole : p.role = "admin")
    (hu : findUser store p.id = some u) :
    ((store.filter (fun x => x.role == "admin")).length ≤ 1 →
      deleteUser store p p.id = (.lastAdmin, store)) ∧
    (2 ≤ (store.filter (fun x => x.role == "admin")).length →
      deleteUser store p p.id =
        (.deleted, store.filter (fun x => x.id != u.id))) := by
  have hup : u.id = p.id := by
    have hfind : List.find? (fun x => x.id == p.id) store = some u := hu
    simpa using List.find?_some hfind
  constructor
  · intro hc
    simp [deleteUser, hu, hup, hrole, hc]
  · intro hc
    have hnc : ¬ (store.filter (fun x => x.role == "admin")).length ≤ 1 := by
      omega
    simp [deleteUser, hu, hup, hrole, hnc]

/-- C7 witness: the sole admin u2 deleting themselves is refused; with a
second admin u3 in the store the self-deletion succeeds. -/
theorem deleteUser_lastAdmin_spec_witness :
    deleteUser [uCustomer, uAdmin] { id := "u2", role := "admin" } "u2" =
      (.lastAdmin, [uCustomer, uAdmin]) ∧
    deleteUser [uCustomer, uAdmin, uAdmin2] { id := "u2", role := "admin" }
        "u2" = (.deleted, [uCustomer, uAdmin2]) := by
  have h1 := deleteUser_lastAdmin_spec [uCustomer, uAdmin]
    { id := "u2", role := "admin" } uAdmin rfl (by decide)
  have h2 := deleteUser_lastAdmin_spec [uCustomer, uAdmin, uAdmin2]
    { id := "u2", role := "admin" } uAdmin rfl (by decide)
  refine ⟨h1.1 (by decide), ?_⟩
  rw [h2.2 (by decide)]
  decide

/-- C8: `deleteUser` carries no admin-only authorization: a non-admin
principal (customer u1) deleting another user's account — here the sole
admin account u2 — succeeds and removes it, where the claim and the code's
own route comment require a 403 Forbidden with nothing deleted. -/
theorem deleteUser_nonadmin_eval :
    deleteUser [uCustomer, uAdmin] { id := "u1", role := "customer" } "u2" =
      (.deleted, [uCustomer]) := by
  decide

/-- C9: account creation on external login is idempotent: when an account
with the login email already exists the create call performs no write, and
running `createUser` twice with the same GitHub profile leaves the account
store equal to running it once. -/
theorem createUser_idempotent (store : List UserDoc) (gh : GithubUser)
    (id1 id2 : String) (now1 now2 : Nat) :
    (∀ e, gh.emails.head? = some e →
      (store.find? (fun u => u.email == e)).isSome = true →
      createUser store gh id1 now1 = store) ∧
    createUser (createUser store gh id1 now1) gh id2 now2 =
      createUser store gh id1 now1 := by
  constructor
  · intro e he hsome
    simp [createUser, he, hsome]
  · cases he : gh.emails.head? with
    | none => simp [createUser, he]
    | some e =>
      cases hf : store.find? (fun u => u.email == e) with
      | some w => simp [createUser, he, hf]
      | none => simp [createUser, he, hf, List.find?_append]

/-- The GitHub profile whose login created the customer account. -/
def ghCust : GithubUser :=
  { id := "g1", emails := ["c@x.io"], displayName := "Cust" }

/-- C9 witness: a fresh store, then a repeat login with the same email. -/
theorem createUser_idempotent_witness :
    createUser [uCustomer] ghCust "u7" 3 = [uCustomer] ∧
    createUser (createUser [] ghCust "u7" 3) ghCust "u8" 4 =
      createUser [] ghCust "u7" 3 := by
  have h1 := createUser_idempotent [uCustomer] ghCust "u7" "u8" 3 4
  have h2 := createUser_idempotent [] ghCust "u7" "u8" 3 4
  exact ⟨h1.1 "c@x.io" rfl (by decide), h2.2⟩

/-- C10: with no authenticated principal, `getUserById` on any existing
account id other than the literal "me" succeeds and returns the account:
the Forbidden ownership check is guarded by the presence of a principal, so
an unauthenticated caller can read any profile by explicit id. -/
theorem getUserById_unauthenticated_read (store : List UserDoc)
    (u : UserDoc) (idParam : String) (hm : idParam ≠ "me")
    (hfind : findUser store idParam = some u) :
    getUserById store none idParam = .ok u := by
  have hme : (idParam == "me") = false := beq_eq_false_iff_ne.mpr hm
  simp [getUserById, hme, hfind]

/-- C10 witness: an unauthenticated read of the customer account u1. -/
theorem getUserById_unauthenticated_read_witness :
    getUserById [uCustomer] none "u1" = .ok uCustomer :=
  getUserById_unauthenticated_read [uCustomer] uCustomer "u1"
    (by decide) (by decide)

end BlossomHub
